import Mathlib

/-!
Verification of the library-build orchestrator (`bin/lib/library_builder.py`).

The Python source is shallowly embedded below: pure helpers become Lean
functions, filesystem/network side effects become explicit parameters
(transport stubs, binary-inspection environments, pre-fetched ledger
responses), and fallible code returns `Except`.  Machine words in the
SHA-256 implementation are `Nat` reduced `% 2^32`.
-/

namespace LibraryBuilderModel

/-! ## String helpers mirroring Python semantics

`strContains s pat` is Python `pat in s`; `strReplace s pat rep` is Python
`s.replace(pat, rep)` (all leftmost non-overlapping occurrences).  They are
implemented over `List Char` so that they reduce inside the kernel.
-/

def isPrefixList : List Char → List Char → Bool
  | [], _ => true
  | _ :: _, [] => false
  | p :: ps, c :: cs => p == c && isPrefixList ps cs

def containsAux (pat : List Char) : List Char → Bool
  | [] => pat.isEmpty
  | c :: cs => isPrefixList pat (c :: cs) || containsAux pat cs

def strContains (s pat : String) : Bool :=
  containsAux pat.data s.data

def replaceAux (pat rep : List Char) : Nat → List Char → List Char
  | 0, s => s
  | _ + 1, [] => []
  | fuel + 1, c :: cs =>
    if isPrefixList pat (c :: cs) then
      rep ++ replaceAux pat rep fuel ((c :: cs).drop pat.length)
    else
      c :: replaceAux pat rep fuel cs

def strReplace (s pat rep : String) : String :=
  if pat.isEmpty then s
  else ⟨replaceAux pat.data rep.data s.data.length s.data⟩

/-- Python `"sep".join(xs)`. -/
def pyJoin (sep : String) : List String → String
  | [] => ""
  | [x] => x
  | x :: y :: xs => x ++ sep ++ pyJoin sep (y :: xs)

/-- Whitespace characters matched by Python regex `\s`. -/
def pySpace (c : Char) : Bool :=
  c == ' ' || c == '\t' || c == '\n' || c == '\r' || c == '\x0b' || c == '\x0c'

/-- The characters of `s` that follow the first occurrence of `pat`,
`none` when `pat` does not occur. -/
def findAfter (pat : List Char) : List Char → Option (List Char)
  | [] => if pat.isEmpty then some [] else none
  | c :: cs =>
    if isPrefixList pat (c :: cs) then some ((c :: cs).drop pat.length)
    else findAfter pat cs

/-! ## SHA-256 (`hashlib.sha256(...).hexdigest()` over the UTF-8 bytes)

Words are `Nat` values kept below `2 ^ 32` by `w32`; bytes are `Nat`
values below `256`.
-/

def w32 (x : Nat) : Nat := x % 4294967296

def rotr32 (n x : Nat) : Nat := w32 ((x >>> n) + (x <<< (32 - n)))

def not32 (x : Nat) : Nat := Nat.xor x 4294967295

def bsig0 (x : Nat) : Nat := Nat.xor (Nat.xor (rotr32 2 x) (rotr32 13 x)) (rotr32 22 x)

def bsig1 (x : Nat) : Nat := Nat.xor (Nat.xor (rotr32 6 x) (rotr32 11 x)) (rotr32 25 x)

def ssig0 (x : Nat) : Nat := Nat.xor (Nat.xor (rotr32 7 x) (rotr32 18 x)) (x >>> 3)

def ssig1 (x : Nat) : Nat := Nat.xor (Nat.xor (rotr32 17 x) (rotr32 19 x)) (x >>> 10)

def chf (x y z : Nat) : Nat := Nat.xor (Nat.land x y) (Nat.land (not32 x) z)

def maj (x y z : Nat) : Nat := Nat.xor (Nat.xor (Nat.land x y) (Nat.land x z)) (Nat.land y z)

def utf8Char (c : Char) : List Nat :=
  let n := c.toNat
  if n < 128 then [n]
  else if n < 2048 then [192 + (n >>> 6), 128 + n % 64]
  else if n < 65536 then [224 + (n >>> 12), 128 + (n >>> 6) % 64, 128 + n % 64]
  else [240 + (n >>> 18), 128 + (n >>> 12) % 64, 128 + (n >>> 6) % 64, 128 + n % 64]

def utf8Bytes (s : String) : List Nat :=
  s.data.flatMap utf8Char

/-- `numBytes` bytes of `n`, big-endian. -/
def toBytesBE : Nat → Nat → List Nat
  | 0, _ => []
  | k + 1, n => toBytesBE k (n / 256) ++ [n % 256]

def sha256Pad (msg : List Nat) : List Nat :=
  let len := msg.length
  let zeros := (119 - len % 64) % 64
  msg ++ [128] ++ List.replicate zeros 0 ++ toBytesBE 8 (len * 8)

def bytesToWords : List Nat → List Nat
  | b0 :: b1 :: b2 :: b3 :: rest =>
    (((b0 * 256 + b1) * 256 + b2) * 256 + b3) :: bytesToWords rest
  | _ => []

def chunksAux : Nat → List Nat → List (List Nat)
  | 0, _ => []
  | _, [] => []
  | fuel + 1, bs => bs.take 64 :: chunksAux fuel (bs.drop 64)

def chunks64 (bs : List Nat) : List (List Nat) :=
  chunksAux bs.length bs

def extendSchedule : Nat → List Nat → List Nat
  | 0, ws => ws
  | n + 1, ws =>
    let i := ws.length
    let nw := w32 (ssig1 (ws.getD (i - 2) 0) + ws.getD (i - 7) 0
      + ssig0 (ws.getD (i - 15) 0) + ws.getD (i - 16) 0)
    extendSchedule n (ws ++ [nw])

def sha256K : List Nat :=
  [1116352408, 1899447441, 3049323471, 3921009573, 961987163, 1508970993,
   2453635748, 2870763221, 3624381080, 310598401, 607225278, 1426881987,
   1925078388, 2162078206, 2614888103, 3248222580, 3835390401, 4022224774,
   264347078, 604807628, 770255983, 1249150122, 1555081692, 1996064986,
   2554220882, 2821834349, 2952996808, 3210313671, 3336571891, 3584528711,
   113926993, 338241895, 666307205, 773529912, 1294757372, 1396182291,
   1695183700, 1986661051, 2177026350, 2456956037, 2730485921, 2820302411,
   3259730800, 3345764771, 3516065817, 3600352804, 4094571909, 275423344,
   430227734, 506948616, 659060556, 883997877, 958139571, 1322822218,
   1537002063, 1747873779, 1955562222, 2024104815, 2227730452, 2361852424,
   2428436474, 2756734187, 3204031479, 3329325298]

def sha256H0 : List Nat :=
  [1779033703, 3144134277, 1013904242, 2773480762, 1359893119, 2600822924,
   528734635, 1541459225]

structure SHAState where
  a : Nat
  b : Nat
  c : Nat
  d : Nat
  e : Nat
  f : Nat
  g : Nat
  h : Nat

def compressRound (st : SHAState) (kw : Nat × Nat) : SHAState :=
  let t1 := w32 (st.h + bsig1 st.e + chf st.e st.f st.g + kw.1 + kw.2)
  let t2 := w32 (bsig0 st.a + maj st.a st.b st.c)
  ⟨w32 (t1 + t2), st.a, st.b, st.c, w32 (st.d + t1), st.e, st.f, st.g⟩

def compressBlock (hs : List Nat) (block : List Nat) : List Nat :=
  let ws := extendSchedule 48 (bytesToWords block)
  let st0 : SHAState :=
    ⟨hs.getD 0 0, hs.getD 1 0, hs.getD 2 0, hs.getD 3 0,
     hs.getD 4 0, hs.getD 5 0, hs.getD 6 0, hs.getD 7 0⟩
  let st := (sha256K.zip ws).foldl compressRound st0
  [w32 (hs.getD 0 0 + st.a), w32 (hs.getD 1 0 + st.b), w32 (hs.getD 2 0 + st.c),
   w32 (hs.getD 3 0 + st.d), w32 (hs.getD 4 0 + st.e), w32 (hs.getD 5 0 + st.f),
   w32 (hs.getD 6 0 + st.g), w32 (hs.getD 7 0 + st.h)]

def sha256Words (msg : List Nat) : List Nat :=
  (chunks64 (sha256Pad msg)).foldl compressBlock sha256H0

def hexDigit (n : Nat) : Char :=
  if n < 10 then Char.ofNat (48 + n) else Char.ofNat (87 + n)

def toHex8 (n : Nat) : List Char :=
  [hexDigit (n / 268435456 % 16), hexDigit (n / 16777216 % 16),
   hexDigit (n / 1048576 % 16), hexDigit (n / 65536 % 16),
   hexDigit (n / 4096 % 16), hexDigit (n / 256 % 16),
   hexDigit (n / 16 % 16), hexDigit (n % 16)]

/-- `hashlib.sha256(bytes(s, "utf-8")).hexdigest()`. -/
def sha256hex (s : String) : String :=
  ⟨(sha256Words (utf8Bytes s)).flatMap toHex8⟩

/-! ## Module-level constants of `library_builder.py` -/

def build_supported_os : List String := ["Linux"]

def build_supported_buildtype : List String := ["Debug"]

def build_supported_arch : List String := ["x86_64", "x86"]

def build_supported_stdver : List String := [""]

def build_supported_stdlib : List String := ["", "libc++"]

def build_supported_flagscollection : List (List String) := [[""]]

/-- The list assigned to `disable_clang_libcpp` before
`disable_clang_32bit = disable_clang_libcpp.copy()` runs. -/
def disable_clang_libcpp_base : List String :=
  ["clang30", "clang31", "clang32", "clang33", "clang341", "clang350", "clang351",
   "clang352", "clang37x", "clang36x", "clang371", "clang380", "clang381", "clang390",
   "clang391", "clang400", "clang401"]

def disable_clang_32bit : List String := disable_clang_libcpp_base

def disable_clang_libcpp : List String := disable_clang_libcpp_base ++ ["clang_lifetime"]

def disable_compiler_ids : List String := ["avrg454"]

def conanserver_url : String := "https://conan.compiler-explorer.com"

inductive BuildStatus where
  | Ok
  | Failed
  | Skipped
  | TimedOut
deriving DecidableEq, Repr

/-! ## `replace_optional_arg` / `expand_make_arg` -/

def replace_optional_arg (arg name value : String) : String :=
  let optional := "%" ++ name ++ "?%"
  if strContains arg optional then
    if value != "" then strReplace arg optional value
    else ""
  else strReplace arg ("%" ++ name ++ "%") value

def expand_make_arg (arg compilerTypeOrGcc buildtype arch stdver stdlib : String) : String :=
  let expanded := arg
  let expanded := replace_optional_arg expanded "compilerTypeOrGcc" compilerTypeOrGcc
  let expanded := replace_optional_arg expanded "buildtype" buildtype
  let expanded := replace_optional_arg expanded "arch" arch
  let expanded := replace_optional_arg expanded "stdver" stdver
  let expanded := replace_optional_arg expanded "stdlib" stdlib
  let intelarch := if arch == "x86" then "ia32" else if arch == "x86_64" then "intel64" else ""
  replace_optional_arg expanded "intelarch" intelarch

/-! ## `makebuildhash` -/

/-- The argument of `hasher.update` in `makebuildhash`: the f-string
serialization of the build parameters, fields joined by `,` and the flag
combination joined by `|`. -/
def serializeBuild (compiler options toolchain buildos buildtype arch stdver stdlib : String)
    (flagscombination : List String) : String :=
  compiler ++ "," ++ options ++ "," ++ toolchain ++ "," ++ buildos ++ "," ++ buildtype
    ++ "," ++ arch ++ "," ++ stdver ++ "," ++ stdlib ++ "," ++ pyJoin "|" flagscombination

def makebuildhash (compiler options toolchain buildos buildtype arch stdver stdlib : String)
    (flagscombination : List String) : String :=
  compiler ++ "_"
    ++ sha256hex (serializeBuild compiler options toolchain buildos buildtype arch stdver
        stdlib flagscombination)

/-! ## `resil_post` / `resil_get`

The transport is a stub mapping the attempt index to either a response or
a `urllib3` `ProtocolError` (the connection-reset exception caught by the
source).  Each failed attempt is followed by `time.sleep(1)`; the loop
results report `(request, attempts made, one-second sleeps performed)`.
-/

structure HttpResponse where
  ok : Bool
  text : String
deriving DecidableEq, Repr

inductive TransportResult where
  | resp (r : HttpResponse)
  | protocolError (msg : String)
deriving DecidableEq, Repr

/-- The `while retries > 0` loop shared by `resil_post` and `resil_get`:
state is the remaining retry budget, the attempt index, and `last_error`.
Returns `(request, attempts, sleeps, last_error)`. -/
def resilLoop (transport : Nat → TransportResult) :
    Nat → Nat → String → Option HttpResponse × Nat × Nat × String
  | 0, _, lastError => (none, 0, 0, lastError)
  | fuel + 1, attempt, lastError =>
    match transport attempt with
    | .resp r => (some r, 1, 0, lastError)
    | .protocolError e =>
      let rest := resilLoop transport fuel (attempt + 1) e
      (rest.1, rest.2.1 + 1, rest.2.2.1 + 1, rest.2.2.2)

/-- `resil_post`: on total failure the returned value is the fallback
record with `ok = False` carrying the last error. -/
def resil_post (transport : Nat → TransportResult) : HttpResponse × Nat × Nat :=
  let r := resilLoop transport 3 0 ""
  match r.1 with
  | some response => (response, r.2.1, r.2.2.1)
  | none => (⟨false, r.2.2.2⟩, r.2.1, r.2.2.1)

/-- `resil_get`: on total failure the request stays `None`. -/
def resil_get (transport : Nat → TransportResult) : Option HttpResponse × Nat × Nat :=
  let r := resilLoop transport 3 0 ""
  (r.1, r.2.1, r.2.2.1)

/-- The `if not request.ok: raise RuntimeError(...)` pattern every ledger
caller applies to a `resil_post` result. -/
def check_post_ok (r : HttpResponse) : Except String HttpResponse :=
  if !r.ok then .error ("Post failure: " ++ r.text) else .ok r

def exceptIsOk {α β : Type} : Except α β → Bool
  | .ok _ => true
  | .error _ => false

/-! ## Ledger reads: `has_failed_before`, `is_already_uploaded` -/

/-- The `/whathasfailedbefore` reply as seen by `has_failed_before`:
`ok` is `request.ok`, the other two fields are the parsed JSON body. -/
structure WhatFailedResponse where
  ok : Bool
  commithash : String
  response : Bool
deriving DecidableEq, Repr

def has_failed_before (r : WhatFailedResponse) (currentCommit : String) :
    Except String Bool :=
  if !r.ok then .error "Post failure for whathasfailedbefore"
  else if r.commithash == currentCommit then .ok r.response
  else .ok false

/-- `is_already_uploaded`: `annotationCommit` is the `commithash` field of
the fetched annotation record when present (`get_build_annotations`
returns a record without that field when no conan hash is available). -/
def is_already_uploaded (annotationCommit : Option String) (currentCommit : String) : Bool :=
  match annotationCommit with
  | some h => currentCommit == h
  | none => false

/-! ## `countValidLibraryBinaries` -/

/-- What `BinaryInfo` reports about one file: existence (checked for the
static-archive case), `ldd_details`, `readelf_header_details`, and the
`has_maybecxx11abi` flag of `cxx_info_from_binary`. -/
structure BinInfo where
  present : Bool
  ldd_details : String
  readelf_header_details : String
  has_maybecxx11abi : Bool

/-- The slice of `LibraryBuildConfig` that `countValidLibraryBinaries` and
`makebuildfor` consult. -/
structure BuildConfigModel where
  lib_type : String
  staticliblink : List String
  sharedliblink : List String
  package_install : Bool

def countValidLibraryBinaries (cfg : BuildConfigModel) (binaries : String → BinInfo)
    (buildfolder arch stdlib : String) : Nat :=
  if cfg.lib_type == "cshared" then
    cfg.sharedliblink.foldl (fun filesfound lib =>
      let bininfo := binaries (buildfolder ++ "/lib" ++ lib ++ ".so")
      if !strContains bininfo.ldd_details "libstdc++.so"
          && !strContains bininfo.ldd_details "libc++.so" then
        if arch == "" then filesfound + 1
        else if arch == "x86" && strContains bininfo.readelf_header_details "ELF32" then
          filesfound + 1
        else if arch == "x86_64" && strContains bininfo.readelf_header_details "ELF64" then
          filesfound + 1
        else filesfound
      else filesfound) 0
  else
    let staticCount := cfg.staticliblink.foldl (fun filesfound lib =>
      let bininfo := binaries (buildfolder ++ "/lib" ++ lib ++ ".a")
      if bininfo.present then
        if stdlib == "" || (stdlib == "libc++" && !bininfo.has_maybecxx11abi) then
          let filesfound := if arch == "" then filesfound + 1 else filesfound
          if arch == "x86" && strContains bininfo.readelf_header_details "ELF32" then
            filesfound + 1
          else if arch == "x86_64" && strContains bininfo.readelf_header_details "ELF64" then
            filesfound + 1
          else filesfound
        else filesfound
      else filesfound) 0
    cfg.sharedliblink.foldl (fun filesfound lib =>
      let bininfo := binaries (buildfolder ++ "/lib" ++ lib ++ ".so")
      if (stdlib == "" && strContains bininfo.ldd_details "libstdc++.so")
          || (stdlib != "" && strContains bininfo.ldd_details (stdlib ++ ".so")) then
        if arch == "" then filesfound + 1
        else if arch == "x86" && strContains bininfo.readelf_header_details "ELF32" then
          filesfound + 1
        else if arch == "x86_64" && strContains bininfo.readelf_header_details "ELF64" then
          filesfound + 1
        else filesfound
      else filesfound) staticCount

/-! ## `executebuildscript` / `executeconanscript` -/

/-- Outcome of running `./cebuild.sh` as a child process: exit with a
code, or expiry of the `build_timeout` wall clock. -/
inductive ExecOutcome where
  | exited (code : Nat)
  | timedOut
deriving DecidableEq, Repr

def executebuildscript : ExecOutcome → BuildStatus
  | .exited 0 => .Ok
  | .exited _ => .Failed
  | .timedOut => .TimedOut

def executeconanscript (exitCode : Nat) : BuildStatus :=
  if exitCode == 0 then .Ok else .Failed

/-! ## `save_build_logging` -/

/-- A POST recorded by `save_build_logging`: the endpoint URL and the
`logging` field of the posted body. -/
structure PostedLog where
  url : String
  logging : String
deriving DecidableEq, Repr

/-- `save_build_logging`, with the harvested contents of the `ce*.txt` log
files passed in as `harvested`.  Returns `none` when no post happens
(status `Skipped`). -/
def save_build_logging (builtok : BuildStatus) (harvested extralogtext : String) :
    Option PostedLog :=
  if builtok == .Failed then
    some ⟨conanserver_url ++ "/buildfailed", harvested ++ "\n\n" ++ extralogtext⟩
  else if builtok == .Ok then
    some ⟨conanserver_url ++ "/buildsuccess", harvested ++ "\n\n" ++ extralogtext⟩
  else if builtok == .TimedOut then
    some ⟨conanserver_url ++ "/buildfailed",
      (harvested ++ "\n\n" ++ "BUILD TIMED OUT!!") ++ "\n\n" ++ extralogtext⟩
  else none

/-! ## `makebuildfor`

Side effects are passed in explicitly: the pre-fetched ledger replies, the
outcome the child processes would produce, and the results of the fallible
`conanproxy_login` / `set_as_uploaded` steps.  The result records the
final `BuildStatus`, whether `executebuildscript` was invoked, and the
`extralogtext` diagnostic handed to `save_build_logging`.
-/

structure BuildAttemptEnv where
  forcebuild : Bool
  dry_run : Bool
  hasToken : Bool
  currentCommit : String
  whatFailed : WhatFailedResponse
  annotationCommit : Option String
  loginResult : Except String Unit
  execOutcome : ExecOutcome
  conanExit : Nat
  uploadResult : Except String Unit

structure MakebuildforResult where
  status : BuildStatus
  executorInvoked : Bool
  extralogtext : String
deriving DecidableEq, Repr

def makebuildfor (cfg : BuildConfigModel) (binaries : String → BinInfo)
    (env : BuildAttemptEnv) (build_folder install_folder arch stdlib : String) :
    Except String MakebuildforResult :=
  let failedBefore : Except String Bool :=
    if env.forcebuild then .ok false
    else has_failed_before env.whatFailed env.currentCommit
  match failedBefore with
  | .error e => .error e
  | .ok fb =>
    if fb then .ok ⟨.Skipped, false, ""⟩
    else if is_already_uploaded env.annotationCommit env.currentCommit
        && !env.forcebuild then
      .ok ⟨.Skipped, false, ""⟩
    else
      let login : Except String Unit :=
        if !env.dry_run && !env.hasToken then env.loginResult else .ok ()
      match login with
      | .error e => .error e
      | .ok _ =>
        let build_status := executebuildscript env.execOutcome
        if build_status == .Ok then
          let countfolder :=
            if cfg.package_install then install_folder ++ "/lib" else build_folder
          let filesfound := countValidLibraryBinaries cfg binaries countfolder arch stdlib
          if filesfound != 0 then
            if !env.dry_run then
              let build_status := executeconanscript env.conanExit
              if build_status == .Ok then
                match env.uploadResult with
                | .error e => .error e
                | .ok _ => .ok ⟨build_status, true, ""⟩
              else .ok ⟨build_status, true, ""⟩
            else .ok ⟨build_status, true, ""⟩
          else .ok ⟨.Failed, true, "No binaries found to export"⟩
        else .ok ⟨build_status, true, ""⟩

/-! ## `does_compiler_support` (capability probe) -/

/-- Outcome of a `subprocess.check_output` invocation: normal output, or a
`CalledProcessError` carrying the process output. -/
inductive InvokeResult where
  | success (output : String)
  | calledProcessError (output : String)
deriving DecidableEq, Repr

/-- `re.search(r"-target (\S*)", options)`: the capture after the first
occurrence, `none` when the pattern does not occur. -/
def getTargetFromOptions (options : String) : Option String :=
  match findAfter "-target ".data options.data with
  | some rest => some ⟨rest.takeWhile (fun c => !pySpace c)⟩
  | none => none

/-- Python `os.path.dirname` for the paths used here (text before the last
slash). -/
def dirname (p : String) : String :=
  ⟨((p.data.reverse.dropWhile (fun c => c != '/')).drop 1).reverse⟩

/-- The body of `does_compiler_support` after the fixed `-target` early
return: the family-specific capability probe.  The compiler invocation is
stubbed by `invoke` and the `os.path.exists(llcexe)` check by `llcExists`.
An uncaught `CalledProcessError` becomes `Except.error`. -/
def does_compiler_support_probe (exe compilerType arch : String)
    (invoke : List String → InvokeResult) (llcExists : Bool) : Except String Bool :=
  if compilerType == "" then
    if strContains exe "icpx" then .ok (arch == "x86" || arch == "x86_64")
    else if strContains exe "icc" then
      match invoke [exe, "--help"] with
      | .success output =>
        let arch := if arch == "x86" then "-m32"
          else if arch == "x86_64" then "-m64" else arch
        .ok (strContains output arch)
      | .calledProcessError _ => .error "CalledProcessError"
    else if strContains exe "zapcc" then .ok (arch == "x86" || arch == "x86_64")
    else
      let output :=
        match invoke [exe, "--target-help"] with
        | .success o => o
        | .calledProcessError o => o
      .ok (strContains output arch)
  else if compilerType == "clang" then
    let output :=
      if llcExists then
        match invoke [dirname exe ++ "/llc", "--version"] with
        | .success o => o
        | .calledProcessError o => o
      else ""
    .ok (strContains output arch)
  else .ok (strContains "" arch)

/-- `does_compiler_support`: a non-empty fixed `-target` option is trusted
verbatim, otherwise the family-specific probe runs. -/
def does_compiler_support (exe compilerType arch options : String)
    (invoke : List String → InvokeResult) (llcExists : Bool) : Except String Bool :=
  match getTargetFromOptions options with
  | some fixedTarget =>
    if fixedTarget != "" then .ok (fixedTarget == arch)
    else does_compiler_support_probe exe compilerType arch invoke llcExists
  | none => does_compiler_support_probe exe compilerType arch invoke llcExists

/-! ## `makebuild`: forcebuild flag and per-compiler combination emission -/

/-- The value of `self.forcebuild` after the assignments at the top of
`makebuild`, before the compiler loop runs. -/
def makebuildForce (forcebuild0 : Bool) (lib_type buildfor : String) : Bool :=
  let f := if buildfor != "" then true else forcebuild0
  if lib_type == "cshared" then f
  else if buildfor == "nonx86" then true
  else if buildfor == "allclang" || buildfor == "allicc" || buildfor == "allgcc"
      || buildfor == "forceall" then true
  else f

/-- The candidate architecture list computed inside the compiler loop of
`makebuild`; `none` when the `continue` for an unsupported fixed
architecture fires. -/
def makebuildArchs (compiler fixed_arch : String)
    (supportsFixedArch supportsX86 : Bool) : Option (List String) :=
  if disable_clang_32bit.contains compiler then some ["x86_64"]
  else if fixed_arch != "" && !supportsFixedArch then none
  else
    let archs := if fixed_arch != "" then [fixed_arch] else build_supported_arch
    if !supportsX86 then some [""] else some archs

structure BuildCombination where
  buildos : String
  buildtype : String
  arch : String
  stdver : String
  stdlib : String
  flags : List String
deriving DecidableEq, Repr

/-- `itertools.product(build_supported_os, build_supported_buildtype,
archs, stdvers, stdlibs, build_supported_flagscollection)` in loop order. -/
def combinationsProduct (oss bts archs stdvers stdlibs : List String)
    (flagscoll : List (List String)) : List BuildCombination :=
  oss.flatMap fun o => bts.flatMap fun b => archs.flatMap fun a =>
    stdvers.flatMap fun sv => stdlibs.flatMap fun sl => flagscoll.map fun fl =>
      ⟨o, b, a, sv, sl, fl⟩

/-- The combinations `makebuild` sends to `makebuildfor` for one surviving
compiler, including the `nonx86` early `continue`. -/
def makebuildCombinationsFor (buildfor compiler fixed_arch : String)
    (supportsFixedArch supportsX86 : Bool) (stdvers stdlibs : List String) :
    List BuildCombination :=
  match makebuildArchs compiler fixed_arch supportsFixedArch supportsX86 with
  | none => []
  | some archs =>
    if buildfor == "nonx86" && (archs.headD "") != "" then []
    else
      combinationsProduct build_supported_os build_supported_buildtype archs
        stdvers stdlibs build_supported_flagscollection

/-! ## Concrete fixtures used to instantiate the theorems -/

/-- A transport whose first two attempts hit a connection reset and whose
third succeeds. -/
def stubTransportFlaky : Nat → TransportResult := fun i =>
  if i < 2 then .protocolError "connection reset" else .resp ⟨true, "body"⟩

/-- A transport on which every attempt hits a connection reset. -/
def stubTransportDown : Nat → TransportResult := fun _ =>
  .protocolError "connection reset"

/-- A compiler invocation that always exits with a non-zero status. -/
def stubInvokeFail : List String → InvokeResult := fun _ =>
  .calledProcessError "exit status 4"

/-- A binary-inspection environment in which no file exists. -/
def stubBinaries : String → BinInfo := fun _ => ⟨false, "", "", false⟩

def stubConfigStatic : BuildConfigModel := ⟨"static", ["foo"], [], false⟩

/-- No force-rebuild, dry run, ledger reports a failure recorded at the
current commit. -/
def stubEnvPriorFailure : BuildAttemptEnv :=
  ⟨false, true, false, "c0ffee", ⟨true, "c0ffee", true⟩, none, .ok (), .exited 0, 0, .ok ()⟩

/-- Force-rebuild, dry run, successful script exit. -/
def stubEnvForce : BuildAttemptEnv :=
  ⟨true, true, false, "c0ffee", ⟨true, "c0ffee", true⟩, none, .ok (), .exited 0, 0, .ok ()⟩

/-! ## Helper lemmas -/

theorem containsAux_append_right (pat l2 : List Char) (h : containsAux pat l2 = true) :
    ∀ l1 : List Char, containsAux pat (l1 ++ l2) = true := by
  intro l1
  induction l1 with
  | nil => simpa using h
  | cons c cs ih =>
    simp only [List.cons_append, containsAux, Bool.or_eq_true]
    exact Or.inr ih

theorem isPrefixList_append_self (pat rest : List Char) :
    isPrefixList pat (pat ++ rest) = true := by
  induction pat with
  | nil => simp [isPrefixList]
  | cons p ps ih => simp [isPrefixList, ih]

theorem containsAux_self_append (pat rest : List Char) :
    containsAux pat (pat ++ rest) = true := by
  cases pat with
  | nil =>
    cases rest with
    | nil => simp [containsAux, List.isEmpty]
    | cons c cs => simp [containsAux, isPrefixList]
  | cons p ps =>
    simp only [List.cons_append, containsAux, Bool.or_eq_true]
    exact Or.inl (isPrefixList_append_self (p :: ps) rest)

theorem containsAux_infix (pat l1 rest : List Char) :
    containsAux pat (l1 ++ (pat ++ rest)) = true :=
  containsAux_append_right pat (pat ++ rest) (containsAux_self_append pat rest) l1

theorem strContains_append_right (s t pat : String) (h : strContains t pat = true) :
    strContains (s ++ t) pat = true := by
  unfold strContains at h ⊢
  rw [String.data_append]
  exact containsAux_append_right _ _ h _

theorem executebuildscript_ne_skipped (o : ExecOutcome) :
    executebuildscript o ≠ .Skipped := by
  cases o with
  | exited code => cases code <;> simp [executebuildscript]
  | timedOut => simp [executebuildscript]

theorem executeconanscript_ne_skipped (code : Nat) :
    executeconanscript code ≠ .Skipped := by
  unfold executeconanscript
  split <;> simp

theorem resilLoop_attempts_le (u : Nat → TransportResult) :
    ∀ (fuel attempt : Nat) (lastError : String),
      (resilLoop u fuel attempt lastError).2.1 ≤ fuel := by
  intro fuel
  induction fuel with
  | zero => intro a le; simp [resilLoop]
  | succ n ih =>
    intro a le
    simp only [resilLoop]
    cases hu : u a with
    | resp r => simp
    | protocolError e =>
      simp only []
      exact Nat.succ_le_succ (ih (a + 1) e)

theorem resil_post_attempts_le (u : Nat → TransportResult) :
    (resil_post u).2.1 ≤ 3 := by
  have hb := resilLoop_attempts_le u 3 0 ""
  unfold resil_post
  cases hx : (resilLoop u 3 0 "").1 <;> simpa [hx] using hb

theorem resil_get_attempts_le (u : Nat → TransportResult) :
    (resil_get u).2.1 ≤ 3 := by
  simpa [resil_get] using resilLoop_attempts_le u 3 0 ""

/-! ## Claim theorems -/

/-- C2: `is_already_uploaded` is true exactly when the fetched annotation
record carries a `commithash` equal to the current source commit hash; a
missing or differing stored hash means not-yet-uploaded. -/
theorem is_already_uploaded_iff_commit_matches (annotationCommit : Option String)
    (currentCommit : String) :
    is_already_uploaded annotationCommit currentCommit = true ↔
      annotationCommit = some currentCommit := by
  cases annotationCommit with
  | none => simp [is_already_uploaded]
  | some h =>
    simp only [is_already_uploaded, beq_iff_eq, Option.some.injEq]
    exact eq_comm

/-- C5 (amended): `makebuildhash` is deterministic and returns the
compiler id, an underscore, and the sha256 hex digest of the comma-joined
field serialization (flags joined by `|`); distinct tuples whose
serializations coincide are not distinguished. -/
theorem makebuildhash_deterministic_format
    (compiler options toolchain buildos buildtype arch stdver stdlib : String)
    (fl : List String) :
    makebuildhash compiler options toolchain buildos buildtype arch stdver stdlib fl
      = makebuildhash compiler options toolchain buildos buildtype arch stdver stdlib fl ∧
    makebuildhash compiler options toolchain buildos buildtype arch stdver stdlib fl
      = compiler ++ "_" ++ sha256hex (compiler ++ "," ++ options ++ "," ++ toolchain ++ ","
          ++ buildos ++ "," ++ buildtype ++ "," ++ arch ++ "," ++ stdver ++ "," ++ stdlib
          ++ "," ++ pyJoin "|" fl) :=
  ⟨rfl, rfl⟩

/-- C5 (counterexample): two build tuples that differ in the `options` and
`toolchain` fields but serialize to the same comma-joined string receive
the identical content hash, because fields are joined with `,` without
escaping. -/
theorem makebuildhash_collision_counterexample :
    (("x,y", "z") ≠ (("x" : String), ("y,z" : String))) ∧
    makebuildhash "g" "x,y" "z" "Linux" "Debug" "x86_64" "" "" [""]
      = makebuildhash "g" "x" "y,z" "Linux" "Debug" "x86_64" "" "" [""] := by
  refine ⟨by decide, ?_⟩
  have h : serializeBuild "g" "x,y" "z" "Linux" "Debug" "x86_64" "" "" [""]
      = serializeBuild "g" "x" "y,z" "Linux" "Debug" "x86_64" "" "" [""] := by decide
  unfold makebuildhash
  rw [h]

/-- C6 (amended): with the optional token present and a non-empty value
the token is replaced by the value; with an empty value the entire
argument expands to the empty string (the whole argument is dropped, not
just the token); without the optional token the plain token is always
substituted, so an empty value yields the argument with the token replaced
by the empty string. -/
theorem replace_optional_arg_amended (arg name value : String) :
    (strContains arg ("%" ++ name ++ "?%") = true → value ≠ "" →
      replace_optional_arg arg name value
        = strReplace arg ("%" ++ name ++ "?%") value) ∧
    (strContains arg ("%" ++ name ++ "?%") = true → value = "" →
      replace_optional_arg arg name value = "") ∧
    (strContains arg ("%" ++ name ++ "?%") = false →
      replace_optional_arg arg name value
        = strReplace arg ("%" ++ name ++ "%") value) ∧
    replace_optional_arg "%stdlib?%" "stdlib" "" = "" ∧
    replace_optional_arg "%stdlib?%" "stdlib" "libc++" = "libc++" ∧
    replace_optional_arg "%stdlib%" "stdlib" "" = "" := by
  refine ⟨?_, ?_, ?_, by decide, by decide, by decide⟩
  · intro h1 h2
    simp [replace_optional_arg, h1, h2]
  · intro h1 h2
    simp [replace_optional_arg, h1, h2]
  · intro h1
    simp [replace_optional_arg, h1]

/-- C6 (witness for the amended theorem): concrete instances of all three
guarded clauses. -/
theorem replace_optional_arg_amended_check :
    (strContains "A%x?%B" ("%" ++ "x" ++ "?%") = true ∧ ("v" : String) ≠ "" ∧
      replace_optional_arg "A%x?%B" "x" "v" = strReplace "A%x?%B" ("%" ++ "x" ++ "?%") "v") ∧
    (replace_optional_arg "A%x?%B" "x" "" = "") ∧
    (strContains "A%x%B" ("%" ++ "x" ++ "?%") = false ∧
      replace_optional_arg "A%x%B" "x" "" = strReplace "A%x%B" ("%" ++ "x" ++ "%") "") :=
  ⟨⟨by decide, by decide,
      (replace_optional_arg_amended "A%x?%B" "x" "v").1 (by decide) (by decide)⟩,
    (replace_optional_arg_amended "A%x?%B" "x" "").2.1 (by decide) rfl,
    ⟨by decide, (replace_optional_arg_amended "A%x%B" "x" "").2.2.1 (by decide)⟩⟩

/-- C6 (counterexample): the claim says an optional token with an empty
value expands to nothing, leaving the rest of the argument; the code drops
the entire argument instead. -/
theorem replace_optional_arg_counterexample :
    replace_optional_arg "A%x?%B" "x" "" = "" ∧
    replace_optional_arg "A%x?%B" "x" "" ≠ "AB" := by
  refine ⟨by decide, by decide⟩

/-- C8: `save_build_logging` posts to `/buildsuccess` on `Ok`, to
`/buildfailed` on `Failed` and on `TimedOut`, and on `TimedOut` the posted
logging data is the harvested logs with the `BUILD TIMED OUT!!` marker
appended, which contains the `BUILD TIMED OUT` marker text. -/
theorem save_build_logging_endpoints (harvested extralogtext : String) :
    save_build_logging .Ok harvested extralogtext
      = some ⟨conanserver_url ++ "/buildsuccess", harvested ++ "\n\n" ++ extralogtext⟩ ∧
    save_build_logging .Failed harvested extralogtext
      = some ⟨conanserver_url ++ "/buildfailed", harvested ++ "\n\n" ++ extralogtext⟩ ∧
    save_build_logging .TimedOut harvested extralogtext
      = some ⟨conanserver_url ++ "/buildfailed",
          (harvested ++ "\n\n" ++ "BUILD TIMED OUT!!") ++ "\n\n" ++ extralogtext⟩ ∧
    strContains ((harvested ++ "\n\n" ++ "BUILD TIMED OUT!!") ++ "\n\n" ++ extralogtext)
      "BUILD TIMED OUT" = true := by
  refine ⟨rfl, rfl, rfl, ?_⟩
  unfold strContains
  have e : (((harvested ++ "\n\n" ++ "BUILD TIMED OUT!!") ++ "\n\n" ++ extralogtext)).data
      = (harvested.data ++ "\n\n".data)
          ++ ("BUILD TIMED OUT".data
            ++ ("!!".data ++ ("\n\n".data ++ extralogtext.data))) := by
    simp [String.data_append, List.append_assoc, List.cons_append]
  rw [e]
  exact containsAux_infix _ _ _

/-- C1: with `forcebuild` off and the ledger reporting a failure recorded
at the current commit, `makebuildfor` returns `Skipped` without invoking
`executebuildscript`; and a failure recorded against a different commit
makes `has_failed_before` return false, so it does not block retrying. -/
theorem prior_failure_skips (cfg : BuildConfigModel) (binaries : String → BinInfo)
    (env : BuildAttemptEnv) (build_folder install_folder arch stdlib : String)
    (r : WhatFailedResponse) (cur : String)
    (h1 : env.forcebuild = false) (h2 : env.whatFailed.ok = true)
    (h3 : env.whatFailed.commithash = env.currentCommit)
    (h4 : env.whatFailed.response = true)
    (h5 : r.ok = true) (h6 : r.commithash ≠ cur) :
    makebuildfor cfg binaries env build_folder install_folder arch stdlib
      = .ok ⟨.Skipped, false, ""⟩ ∧
    has_failed_before r cur = .ok false := by
  constructor
  · simp [makebuildfor, has_failed_before, h1, h2, h3, h4]
  · simp [has_failed_before, h5, beq_iff_eq, h6]

/-- C1 (witness): a concrete ledger stub reporting a failure at the
current commit produces `Skipped` with the executor not invoked, and a
stub recorded at a different commit yields false. -/
theorem prior_failure_skips_check :
    makebuildfor stubConfigStatic stubBinaries stubEnvPriorFailure "b" "i" "x86_64" ""
      = .ok ⟨.Skipped, false, ""⟩ ∧
    has_failed_before ⟨true, "deadbf", true⟩ "c0ffee" = .ok false :=
  prior_failure_skips stubConfigStatic stubBinaries stubEnvPriorFailure "b" "i" "x86_64" ""
    ⟨true, "deadbf", true⟩ "c0ffee" rfl rfl rfl rfl rfl (by decide)

set_option maxHeartbeats 2000000 in
/-- C3: whenever the executor ran and exited 0 but
`countValidLibraryBinaries` reports zero matching binaries, the final
status is `Failed` (never `Ok`) and the `No binaries found to export`
diagnostic is attached. -/
theorem zero_binaries_forces_failed (cfg : BuildConfigModel) (binaries : String → BinInfo)
    (env : BuildAttemptEnv) (build_folder install_folder arch stdlib : String)
    (r : MakebuildforResult)
    (hexec : env.execOutcome = .exited 0)
    (hcount : countValidLibraryBinaries cfg binaries
        (if cfg.package_install then install_folder ++ "/lib" else build_folder)
        arch stdlib = 0)
    (hres : makebuildfor cfg binaries env build_folder install_folder arch stdlib = .ok r)
    (hinv : r.executorInvoked = true) :
    r.status = .Failed ∧ r.status ≠ .Ok ∧
    r.extralogtext = "No binaries found to export" := by
  unfold makebuildfor at hres
  simp only [hexec, executebuildscript, beq_self_eq_true, if_true] at hres
  repeat'
    first
      | exact Except.noConfusion hres
      | (injection hres with h
         subst h
         first
           | exact ⟨rfl, by decide, rfl⟩
           | simp_all)
      | split at hres
      | simp_all

/-- C3 (witness): forced dry-run build with exit code 0 and an environment
where no binaries exist ends `Failed` with the diagnostic attached. -/
theorem zero_binaries_forces_failed_check :
    (⟨.Failed, true, "No binaries found to export"⟩ : MakebuildforResult).status = .Failed ∧
    (⟨.Failed, true, "No binaries found to export"⟩ : MakebuildforResult).status ≠ .Ok ∧
    (⟨.Failed, true, "No binaries found to export"⟩ : MakebuildforResult).extralogtext
      = "No binaries found to export" :=
  zero_binaries_forces_failed stubConfigStatic stubBinaries stubEnvForce "b" "i" "x86_64" ""
    ⟨.Failed, true, "No binaries found to export"⟩ rfl rfl rfl rfl

set_option maxHeartbeats 2000000 in
/-- C10: any non-empty `buildfor` selector makes `makebuild` set
`forcebuild` before the compiler loop runs, and with `forcebuild` set
`makebuildfor` can never return `Skipped`, so the skip paths fire only in
the build-everything mode. -/
theorem nonempty_buildfor_forces_build (forcebuild0 : Bool) (lib_type buildfor : String)
    (cfg : BuildConfigModel) (binaries : String → BinInfo) (env : BuildAttemptEnv)
    (build_folder install_folder arch stdlib : String) (r : MakebuildforResult)
    (hb : buildfor ≠ "") (hf : env.forcebuild = true)
    (hres : makebuildfor cfg binaries env build_folder install_folder arch stdlib = .ok r) :
    makebuildForce forcebuild0 lib_type buildfor = true ∧ r.status ≠ .Skipped := by
  constructor
  · have hb' : (buildfor != "") = true := by simp [bne_iff_ne, hb]
    unfold makebuildForce
    rw [hb']
    simp only [if_true]
    split
    · rfl
    · split
      · rfl
      · split <;> rfl
  · unfold makebuildfor at hres
    simp only [hf, Bool.not_true, Bool.and_false] at hres
    repeat'
      first
        | exact Except.noConfusion hres
        | (injection hres with h
           subst h
           first
             | exact executebuildscript_ne_skipped _
             | exact executeconanscript_ne_skipped _
             | decide
             | simp_all)
        | split at hres
        | simp_all

/-- C10 (witness): `buildfor = "clang30"` forces the build and the forced
attempt does not end `Skipped`. -/
theorem nonempty_buildfor_forces_build_check :
    makebuildForce false "static" "clang30" = true ∧
    (⟨.Failed, true, "No binaries found to export"⟩ : MakebuildforResult).status ≠ .Skipped :=
  nonempty_buildfor_forces_build false "static" "clang30" stubConfigStatic stubBinaries
    stubEnvForce "b" "i" "x86_64" "" ⟨.Failed, true, "No binaries found to export"⟩
    (by decide) rfl rfl

/-- C4: every transport call makes at most 3 attempts; a transport that
fails twice then succeeds returns the successful response on the third
attempt after two one-second sleeps; a transport that always fails makes
exactly 3 attempts, `resil_post` returns the fallback with `ok = False`
carrying the last error (so the caller check raises) and `resil_get`
returns nothing. -/
theorem transport_retry_policy
    (t tfail : Nat → TransportResult) (r0 : HttpResponse) (e0 e1 f0 f1 f2 : String)
    (h0 : t 0 = .protocolError e0) (h1 : t 1 = .protocolError e1) (h2 : t 2 = .resp r0)
    (g0 : tfail 0 = .protocolError f0) (g1 : tfail 1 = .protocolError f1)
    (g2 : tfail 2 = .protocolError f2) :
    (∀ u : Nat → TransportResult, (resil_post u).2.1 ≤ 3 ∧ (resil_get u).2.1 ≤ 3) ∧
    resil_post t = (r0, 3, 2) ∧
    resil_get t = (some r0, 3, 2) ∧
    resil_post tfail = (⟨false, f2⟩, 3, 3) ∧
    resil_get tfail = (none, 3, 3) ∧
    check_post_ok (resil_post tfail).1 = .error ("Post failure: " ++ f2) := by
  have ht : resilLoop t 3 0 "" = (some r0, 3, 2, e1) := by
    simp [resilLoop, h0, h1, h2]
  have hfl : resilLoop tfail 3 0 "" = (none, 3, 3, f2) := by
    simp [resilLoop, g0, g1, g2]
  refine ⟨fun u => ⟨resil_post_attempts_le u, resil_get_attempts_le u⟩, ?_, ?_, ?_, ?_, ?_⟩
  · simp [resil_post, ht]
  · simp [resil_get, ht]
  · simp [resil_post, hfl]
  · simp [resil_get, hfl]
  · simp [resil_post, hfl, check_post_ok]

/-- C4 (witness): concrete flaky and dead transports. -/
theorem transport_retry_policy_check :
    resil_post stubTransportFlaky = (⟨true, "body"⟩, 3, 2) ∧
    resil_get stubTransportFlaky = (some ⟨true, "body"⟩, 3, 2) ∧
    resil_post stubTransportDown = (⟨false, "connection reset"⟩, 3, 3) ∧
    resil_get stubTransportDown = (none, 3, 3) ∧
    check_post_ok (resil_post stubTransportDown).1
      = .error ("Post failure: " ++ "connection reset") := by
  have h := transport_retry_policy stubTransportFlaky stubTransportDown ⟨true, "body"⟩
    "connection reset" "connection reset" "connection reset" "connection reset"
    "connection reset" rfl rfl rfl rfl rfl rfl
  exact ⟨h.2.1, h.2.2.1, h.2.2.2.1, h.2.2.2.2.1, h.2.2.2.2.2⟩

/-- C7: a compiler on the 32-bit-disabled list gets its candidate
architecture set narrowed to exactly `[x86_64]`, so no combination emitted
for it carries architecture `x86`. -/
theorem disable_32bit_restricts_to_x86_64 (buildfor compiler fixed_arch : String)
    (supportsFixedArch supportsX86 : Bool) (stdvers stdlibs : List String)
    (h : compiler ∈ disable_clang_32bit) :
    makebuildArchs compiler fixed_arch supportsFixedArch supportsX86 = some ["x86_64"] ∧
    ∀ c ∈ makebuildCombinationsFor buildfor compiler fixed_arch supportsFixedArch
        supportsX86 stdvers stdlibs, c.arch = "x86_64" ∧ c.arch ≠ "x86" := by
  have harch : makebuildArchs compiler fixed_arch supportsFixedArch supportsX86
      = some ["x86_64"] := by simp [makebuildArchs, h]
  refine ⟨harch, ?_⟩
  intro c hmem
  simp only [makebuildCombinationsFor, harch] at hmem
  split at hmem
  · simp at hmem
  · simp only [combinationsProduct, build_supported_os, build_supported_buildtype,
      build_supported_flagscollection, List.mem_flatMap, List.mem_map,
      List.mem_singleton, List.mem_cons, List.not_mem_nil, or_false] at hmem
    obtain ⟨o, ho, b, hb, a, ha, sv, hsv, sl, hsl, fl, hfl, hceq⟩ := hmem
    subst hceq
    subst ha
    refine ⟨rfl, ?_⟩
    intro hx
    simp at hx

/-- C7 (witness): `clang30` is on the 32-bit-disabled list and its emitted
combinations all carry `x86_64`. -/
theorem disable_32bit_restricts_to_x86_64_check :
    makebuildArchs "clang30" "" true true = some ["x86_64"] ∧
    ∀ c ∈ makebuildCombinationsFor "" "clang30" "" true true [""] [""],
      c.arch = "x86_64" ∧ c.arch ≠ "x86" :=
  disable_32bit_restricts_to_x86_64 "" "clang30" "" true true [""] [""] (by decide)

/-- C9 (amended): a probe whose compiler invocation exits non-zero never
escapes in the gcc-like (`--target-help`), clang (`llc --version`), icpx,
zapcc and unknown-family branches — the caught error output is searched
for the architecture instead; only the unguarded icc `--help` invocation
can propagate an exception. -/
theorem probe_errors_confined_outside_icc (exe compilerType arch options : String)
    (invoke : List String → InvokeResult) (llcExists : Bool)
    (h : compilerType ≠ "" ∨ strContains exe "icc" = false) :
    exceptIsOk (does_compiler_support exe compilerType arch options invoke llcExists)
      = true := by
  have hprobe : exceptIsOk (does_compiler_support_probe exe compilerType arch invoke
      llcExists) = true := by
    unfold does_compiler_support_probe
    by_cases hct : (compilerType == "") = true
    · have hicc : strContains exe "icc" = false := by
        rcases h with h1 | h2
        · exact absurd (by simpa using hct) h1
        · exact h2
      rw [if_pos hct]
      by_cases hicpx : strContains exe "icpx" = true
      · rw [if_pos hicpx]; rfl
      · rw [if_neg hicpx, if_neg (by simp [hicc])]
        by_cases hzap : strContains exe "zapcc" = true
        · rw [if_pos hzap]; rfl
        · rw [if_neg hzap]
          cases invoke [exe, "--target-help"] <;> rfl
    · rw [if_neg hct]
      by_cases hcl : (compilerType == "clang") = true
      · rw [if_pos hcl]; rfl
      · rw [if_neg hcl]; rfl
  unfold does_compiler_support
  split
  · split
    · rfl
    · exact hprobe
  · exact hprobe

/-- C9 (witness for the amended theorem): a clang-family probe whose `llc`
invocation always fails still completes without an exception. -/
theorem probe_errors_confined_outside_icc_check :
    exceptIsOk (does_compiler_support "/usr/bin/clang++" "clang" "x86" ""
      stubInvokeFail true) = true :=
  probe_errors_confined_outside_icc "/usr/bin/clang++" "clang" "x86" ""
    stubInvokeFail true (Or.inl (by decide))

/-- C9 (counterexample): in the icc branch the invocation is not guarded,
so a non-zero exit propagates as an exception instead of being treated as
"does not support". -/
theorem icc_probe_error_escapes :
    does_compiler_support "/opt/intel/icc" "" "x86" ""
      (fun _ => .calledProcessError "exit status 1") true = .error "CalledProcessError" ∧
    exceptIsOk (does_compiler_support "/opt/intel/icc" "" "x86" ""
      (fun _ => .calledProcessError "exit status 1") true) = false :=
  ⟨rfl, rfl⟩

end LibraryBuilderModel

